import Mathlib

/-!
Verification of the search / thread-retrieval core of the slack-mcp server.

The TypeScript sources are shallowly embedded:

* `SlackAPIClient` (src/services/slack-api-client.ts): retry loop,
  error classification, retry-delay computation, channel-name lookup.
* `SearchService` (the current revision, with tolerant channel resolution
  and `getThreadReplies`): query validation, channel resolution with
  partial-failure tolerance, multi-channel fan-out, merge/sort/truncate,
  thread-reply mapping and ordering.

JavaScript numbers are modelled by `ℚ` (exact rationals; float rounding
is not modelled), machine strings by `String`, absent (`undefined`/`null`)
values by `Option`.  Logging and metrics calls are side effects with no
influence on results and are not modelled.
-/

/-! ### JavaScript string / number primitives used by the sources -/

/-- Whitespace recognised by the JS primitives modelled below
(`String.prototype.trim`, `parseFloat`, `parseInt`). -/
def jsWhitespace (c : Char) : Bool :=
  c = ' ' || c = '\t' || c = '\n' || c = '\r' || c = '\x0b' || c = '\x0c'

/-- Model of `String.prototype.trim`: strip leading and trailing whitespace. -/
def jsTrim (s : String) : String :=
  String.mk (((s.data.dropWhile jsWhitespace).reverse.dropWhile jsWhitespace).reverse)

/-- Model of `String.prototype.includes(pat)`: substring containment. -/
def strIncludes (s pat : String) : Bool :=
  decide (pat.data <:+: s.data)

/-- Numeric value of a list of decimal digit characters. -/
def natOfDigits (cs : List Char) : Nat :=
  cs.foldl (fun a c => 10 * a + (c.toNat - 48)) 0

/-- Exponent contributed by a well-formed `[eE][+-]?digits` part at the
given position (`0` when absent or malformed, as `parseFloat` then simply
stops before it). -/
def parseExponentPart (cs : List Char) : Int :=
  match cs with
  | c :: rest =>
    if c = 'e' || c = 'E' then
      let signRest : Int × List Char :=
        match rest with
        | '+' :: r => (1, r)
        | '-' :: r => (-1, r)
        | r => (1, r)
      let eds := signRest.2.takeWhile Char.isDigit
      if eds = [] then 0 else signRest.1 * (natOfDigits eds : Int)
    else 0
  | [] => 0

/-- Model of JS `parseFloat` on decimal notation: skip leading whitespace,
optional sign, longest prefix `digits[.digits][exponent]` (also `.digits`);
`none` models `NaN` (no parsable prefix).  The `Infinity` literal is not
modelled (never produced by the platform timestamps handled here). -/
def parseFloatQ (s : String) : Option ℚ :=
  let cs := s.data.dropWhile jsWhitespace
  let signRest : Int × List Char :=
    match cs with
    | '+' :: r => (1, r)
    | '-' :: r => (-1, r)
    | r => (1, r)
  let ids := signRest.2.takeWhile Char.isDigit
  let rest1 := signRest.2.dropWhile Char.isDigit
  let fracRest : List Char × List Char :=
    match rest1 with
    | '.' :: r => (r.takeWhile Char.isDigit, r.dropWhile Char.isDigit)
    | r => ([], r)
  if ids = [] && fracRest.1 = [] then none
  else
    let m : Int := signRest.1 * (natOfDigits (ids ++ fracRest.1) : Int)
    let e : Int := parseExponentPart fracRest.2 - (fracRest.1.length : Int)
    some (if 0 ≤ e then mkRat (m * ((10 : Nat) ^ e.toNat : Nat)) 1
          else mkRat m ((10 : Nat) ^ (-e).toNat))

/-- Model of JS `parseInt(s, 10)`: skip leading whitespace, optional sign,
longest decimal-digit prefix; `none` models `NaN`. -/
def parseIntJS (s : String) : Option Int :=
  let cs := s.data.dropWhile jsWhitespace
  let signRest : Int × List Char :=
    match cs with
    | '+' :: r => (1, r)
    | '-' :: r => (-1, r)
    | r => (1, r)
  let ds := signRest.2.takeWhile Char.isDigit
  if ds = [] then none else some (signRest.1 * (natOfDigits ds : Int))

/-- Left-pad the decimal representation of `n` with zeros to width `w`. -/
def padZeros (w : Nat) (n : Nat) : String :=
  let s := toString n
  String.mk (List.replicate (w - s.length) '0') ++ s

/-- Proleptic-Gregorian date of a day count relative to 1970-01-01
(Howard Hinnant's `civil_from_days`): year, month (1..12), day (1..31). -/
def civilFromDays (z0 : Int) : Int × Nat × Nat :=
  let z := z0 + 719468
  let era : Int := Int.fdiv z 146097
  let doe : Nat := (z - era * 146097).toNat
  let yoe : Nat := (doe - doe / 1460 + doe / 36524 - doe / 146096) / 365
  let doy : Nat := doe - (365 * yoe + yoe / 4 - yoe / 100)
  let mp : Nat := (5 * doy + 2) / 153
  let d : Nat := doy - (153 * mp + 2) / 5 + 1
  let m : Nat := if mp < 10 then mp + 3 else mp - 9
  let y : Int := (yoe : Int) + era * 400 + (if m ≤ 2 then 1 else 0)
  (y, m, d)

/-- Model of `Date.prototype.toISOString` on an integral millisecond time
value: `YYYY-MM-DDTHH:mm:ss.sssZ`, with the expanded `±YYYYYY` year form
outside 0..9999.  (JS throws a RangeError beyond ±8.64e15 ms; the inputs
handled here stay far inside that range.) -/
def dateToISOStringFromMs (ms : Int) : String :=
  let days := Int.fdiv ms 86400000
  let msod : Nat := (ms - days * 86400000).toNat
  let ymd := civilFromDays days
  let hh := msod / 3600000
  let mi := msod % 3600000 / 60000
  let ss := msod % 60000 / 1000
  let mss := msod % 1000
  let yearStr :=
    if 0 ≤ ymd.1 && ymd.1 ≤ 9999 then padZeros 4 ymd.1.toNat
    else if ymd.1 < 0 then "-" ++ padZeros 6 (-ymd.1).toNat
    else "+" ++ padZeros 6 ymd.1.toNat
  yearStr ++ "-" ++ padZeros 2 ymd.2.1 ++ "-" ++ padZeros 2 ymd.2.2 ++ "T" ++
    padZeros 2 hh ++ ":" ++ padZeros 2 mi ++ ":" ++ padZeros 2 ss ++ "." ++
    padZeros 3 mss ++ "Z"

/-- The integral millisecond time value of `q` seconds: truncation toward
zero of `q * 1000` (the ES `TimeClip` of the `Date` constructor argument),
computed on the rational's numerator and denominator. -/
def jsTimeValueMs (q : ℚ) : Int :=
  Int.tdiv (q.num * 1000) (q.den : Int)

/-! ### Data shapes shared by the gateway and the search service
(src/services/slack-api-client.ts) -/

/-- One search match as delivered in the internal envelope
(`SlackMessage` in slack-api-client.ts; the fields not read by any
modelled code path are omitted). -/
structure SlackMessage where
  type : String
  channelId : String
  channelName : String
  user : String
  username : Option String
  text : String
  ts : String
  permalink : String
  score : Option ℚ
  deriving DecidableEq

/-- Paging block of the internal search envelope. -/
structure SlackPaging where
  count : Int
  totalResultCount : Int
  pageNumber : Int
  totalPageCount : Int
  deriving DecidableEq

/-- `messages` block of the internal search envelope.  The TypeScript
interface declares `matches` as always present, but the search service
re-validates it at runtime (guarding against drift through the
`ISlackClient` interface), so it is modelled as optional. -/
structure SlackMessagesData where
  totalResultCount : Int
  «matches» : Option (List SlackMessage)
  paging : Option SlackPaging
  deriving DecidableEq

/-- Internal search envelope (`SlackSearchResponse`).  `messages` is
modelled as optional for the same re-validation reason. -/
structure SlackSearchResponse where
  isSuccess : Bool
  query : String
  messages : Option SlackMessagesData
  error : Option String
  deriving DecidableEq

/-- Search options passed to the gateway (`SlackSearchOptions`; the
`pageNumber`/`sort`/`highlight` fields are never set by the search
service and are omitted). -/
structure SlackSearchOptions where
  query : String
  maxResultCount : Option Int
  teamId : Option String
  deriving DecidableEq

namespace SlackAPIClient

/-- `MAX_RETRIES`: 3 retries after the initial attempt. -/
def MAX_RETRIES : Nat := 3

/-- `BASE_DELAY_MS`: base delay of the exponential backoff. -/
def BASE_DELAY_MS : Int := 1000

/-- A raw error value caught from an upstream call: its `message`,
optional `code` and optional `statusCode` properties (the ad hoc
property probing of the source reads exactly these). -/
structure ErrShape where
  message : String
  code : Option String
  statusCode : Option Int
  deriving DecidableEq

/-- A raw match object of the platform's search response (all fields may
be absent at runtime). -/
structure RawMatch where
  type : Option String
  channelId : Option String
  channelName : Option String
  user : Option String
  username : Option String
  text : Option String
  ts : Option String
  permalink : Option String
  score : Option ℚ
  deriving DecidableEq

/-- Raw paging object of the platform's search response. -/
structure RawPaging where
  count : Option Int
  total : Option Int
  page : Option Int
  pages : Option Int
  deriving DecidableEq

/-- Raw `messages` object of the platform's search response. -/
structure RawMessages where
  total : Option Int
  «matches» : Option (List RawMatch)
  paging : Option RawPaging
  deriving DecidableEq

/-- A raw platform search response together with the HTTP metadata the
client inspects (`SlackAPIResponse`): success flag, error code, status
code and the `retry-after` header (a string or an array of strings). -/
structure SlackAPIResponse where
  ok : Bool
  error : Option String
  statusCode : Option Int
  retryAfter : Option (String ⊕ List String)
  query : Option String
  messages : Option RawMessages
  deriving DecidableEq

/-- `getErrorMessage` on a caught error shape. -/
def getErrorMessage (e : ErrShape) : String := e.message

/-- `isRateLimitError`: failed response with a rate-limit error code or
HTTP status 429. -/
def isRateLimitError (r : SlackAPIResponse) : Bool :=
  !r.ok && (r.error = some "ratelimited" || r.error = some "rate_limited" ||
    r.statusCode = some 429)

/-- `isAuthenticationError`: failed response with one of the four
authentication error codes. -/
def isAuthenticationError (r : SlackAPIResponse) : Bool :=
  !r.ok && (r.error = some "invalid_auth" || r.error = some "invalid_token" ||
    r.error = some "account_inactive" || r.error = some "token_revoked")

/-- `isConnectionError`: transport-level failure recognised by error
code or message fragment. -/
def isConnectionError (e : ErrShape) : Bool :=
  e.code = some "ECONNREFUSED" || e.code = some "ETIMEDOUT" ||
  e.code = some "ENOTFOUND" || e.code = some "ECONNRESET" ||
  strIncludes e.message "timeout" || strIncludes e.message "ECONNREFUSED" ||
  strIncludes e.message "ETIMEDOUT" || strIncludes e.message "ENOTFOUND"

/-- `isAuthenticationErrorMessage`: the message mentions one of the four
authentication error codes. -/
def isAuthenticationErrorMessage (msg : String) : Bool :=
  strIncludes msg "invalid_auth" || strIncludes msg "invalid_token" ||
  strIncludes msg "account_inactive" || strIncludes msg "token_revoked"

/-- `isRateLimitErrorMessage`: the message mentions a rate-limit code, or
the status code is 429. -/
def isRateLimitErrorMessage (msg : String) (statusCode : Option Int) : Bool :=
  strIncludes msg "ratelimited" || strIncludes msg "rate_limited" ||
  statusCode = some 429

/-- `calculateRetryDelayMs`: the wait before the next attempt after a
rate-limited response.  Uses the `retry-after` header (seconds, converted
to ms) when that value is truthy and parses to a truthy integer, else
exponential backoff `BASE_DELAY_MS * 2^attempt`.  The two truthiness
tests (`if (retryAfterValue)` and `retryAfterSeconds ? _ : _`) are
modelled exactly, so the empty string and a parsed `0` both fall back to
the backoff. -/
def calculateRetryDelayMs (retryAfterHeader : Option (String ⊕ List String))
    (attempt : Nat) : Int :=
  let retryAfterValue : Option String :=
    match retryAfterHeader with
    | none => none
    | some (Sum.inl s) => some s
    | some (Sum.inr l) => l.head?
  let retryAfterSeconds : Option Int :=
    match retryAfterValue with
    | some s => if s ≠ "" then parseIntJS s else none
    | none => none
  match retryAfterSeconds with
  | some n => if n ≠ 0 then n * 1000 else BASE_DELAY_MS * 2 ^ attempt
  | none => BASE_DELAY_MS * 2 ^ attempt

/-- `convertSlackMatchesToMessages` (client side): raw matches to
`SlackMessage`s, defaulting every absent field. -/
def convertSlackMatchesToMessages («matches» : Option (List RawMatch)) :
    List SlackMessage :=
  («matches».getD []).map fun mt =>
    { type := mt.type.getD "message"
      channelId := mt.channelId.getD ""
      channelName := mt.channelName.getD ""
      user := mt.user.getD ""
      username := mt.username
      text := mt.text.getD ""
      ts := mt.ts.getD ""
      permalink := mt.permalink.getD ""
      score := mt.score }

/-- `convertPagingInfo`: raw paging to the internal paging block. -/
def convertPagingInfo (paging : Option RawPaging) : Option SlackPaging :=
  match paging with
  | none => none
  | some p =>
    some { count := p.count.getD 0, totalResultCount := p.total.getD 0,
           pageNumber := p.page.getD 1, totalPageCount := p.pages.getD 1 }

/-- `convertMessagesData`: raw `messages` block to the internal one. -/
def convertMessagesData (messagesData : Option RawMessages) : SlackMessagesData :=
  { totalResultCount := (messagesData.bind (·.total)).getD 0
    «matches» := some (convertSlackMatchesToMessages (messagesData.bind (·.«matches»)))
    paging := convertPagingInfo (messagesData.bind (·.paging)) }

/-- `convertSearchResultToResponse`: raw response to the internal
envelope. -/
def convertSearchResultToResponse (r : SlackAPIResponse) (originalQuery : String) :
    SlackSearchResponse :=
  { isSuccess := r.ok
    query := r.query.getD originalQuery
    messages := some (convertMessagesData r.messages)
    error := r.error }

/-- An error thrown inside the retry loop: either a `RateLimitError`
instance carrying its delay, or a plain error shape. -/
inductive ThrownError where
  | rateLimit (delayMs : Int)
  | plain (e : ErrShape)
  deriving DecidableEq

/-- Message of a `RateLimitError` (`new RateLimitError(delayMs)`). -/
def rateLimitErrorMessage (delayMs : Int) : String :=
  "レート制限エラーが発生しました（待機: " ++ toString delayMs ++ "ms）"

/-- Message thrown when the rate-limit retry ceiling is hit inside
`handleSearchResponse`. -/
def rateLimitCeilingMessage : String :=
  "エラー: Slack API のレート制限に達しました。リトライ回数の上限（4回）に達しました。"

/-- Authentication failure message built from the response error code. -/
def authResponseMessage (errCode : String) : String :=
  "エラー: Slack API の認証に失敗しました。\nトークンが有効で、必要なスコープが付与されていることを確認してください。\nエラー詳細: " ++ errCode

/-- Generic failed-call message built from an upstream error string. -/
def apiErrorMessage (err : String) : String :=
  "エラー: Slack API の呼び出しに失敗しました。\n" ++ err

/-- Connectivity failure message built after exhausting retries. -/
def connectionFailureMessage (msg : String) : String :=
  "エラー: Slack API への接続に失敗しました。\nネットワーク接続を確認してください。\nエラー詳細: " ++ msg

/-- `handleSearchResponse`: classify a raw response at a given attempt.
Returns `.ok ()` when the response is usable, otherwise the error the
source throws (a `RateLimitError` with the computed delay while retries
remain, the ceiling error at the last attempt, an authentication error,
or a plain API error). -/
def handleSearchResponse (r : SlackAPIResponse) (attempt : Nat) :
    Except ThrownError Unit :=
  if isRateLimitError r then
    if MAX_RETRIES ≤ attempt then
      .error (.plain ⟨rateLimitCeilingMessage, none, none⟩)
    else
      .error (.rateLimit (calculateRetryDelayMs r.retryAfter attempt))
  else if isAuthenticationError r then
    .error (.plain ⟨authResponseMessage ((r.error).getD ""), none, none⟩)
  else if !r.ok && (r.error).isSome then
    .error (.plain ⟨apiErrorMessage ((r.error).getD ""), none, none⟩)
  else
    .ok ()

/-- `handleSearchError`: decide whether a caught error is retried.
`.ok true` means "wait, then retry"; an `.error` is what the source
(re-)throws.  (`.ok false` — "rethrow the original" — is unreachable in
the source but kept for shape.) -/
def handleSearchError (e : ThrownError) (attempt : Nat) : Except ThrownError Bool :=
  match e with
  | .rateLimit delayMs =>
    if attempt < MAX_RETRIES then .ok true
    else .error (.plain ⟨rateLimitErrorMessage delayMs, none, none⟩)
  | .plain err =>
    if isAuthenticationErrorMessage (getErrorMessage err) then
      .error (.plain ⟨authResponseMessage (getErrorMessage err), none, none⟩)
    else if isConnectionError err then
      if MAX_RETRIES ≤ attempt then
        .error (.plain ⟨connectionFailureMessage (getErrorMessage err), none, none⟩)
      else .ok true
    else if isRateLimitErrorMessage (getErrorMessage err) err.statusCode then
      if attempt < MAX_RETRIES then .ok true
      else .error (.plain ⟨apiErrorMessage (getErrorMessage err), none, none⟩)
    else
      .error (.plain ⟨apiErrorMessage (getErrorMessage err), none, none⟩)

/-- What one upstream call yields before classification: a raw response,
or a thrown exception. -/
inductive ApiOutcome where
  | response (r : SlackAPIResponse)
  | exception (e : ErrShape)
  deriving DecidableEq

/-- `executeSearchOnce`: perform the call of one attempt (its outcome is
supplied by the environment `env`), classify the response, and convert a
usable response to the internal envelope. -/
def executeSearchOnce (env : Nat → ApiOutcome) (opts : SlackSearchOptions)
    (attempt : Nat) : Except ThrownError SlackSearchResponse :=
  match env attempt with
  | .exception e => .error (.plain e)
  | .response r =>
    match handleSearchResponse r attempt with
    | .error te => .error te
    | .ok _ => .ok (convertSearchResultToResponse r opts.query)

/-- Net effect of one loop iteration. -/
inductive StepResult where
  | success (r : SlackSearchResponse)
  | retry
  | fail (e : ThrownError)
  deriving DecidableEq

/-- One iteration of the retry loop body: try the attempt; on error let
`handleSearchError` decide between retrying and failing. -/
def stepOf (env : Nat → ApiOutcome) (opts : SlackSearchOptions) (attempt : Nat) :
    StepResult :=
  match executeSearchOnce env opts attempt with
  | .ok r => .success r
  | .error e =>
    match handleSearchError e attempt with
    | .ok true => .retry
    | .ok false => .fail e
    | .error e2 => .fail e2

/-- Message of the unreachable throw after the loop. -/
def loopFallthroughMessage : String := "エラー: Slack API の呼び出しに失敗しました。"

/-- The retry loop of `executeSearchWithRetry`, with the remaining number
of loop iterations made explicit (`fuel` = `MAX_RETRIES + 1 - attempt`).
Returns the final result together with the number of attempts executed. -/
def retryLoop (env : Nat → ApiOutcome) (opts : SlackSearchOptions) :
    Nat → Nat → Except ThrownError SlackSearchResponse × Nat
  | 0, attempt => (.error (.plain ⟨loopFallthroughMessage, none, none⟩), attempt)
  | fuel + 1, attempt =>
    match stepOf env opts attempt with
    | .success r => (.ok r, attempt + 1)
    | .retry => retryLoop env opts fuel (attempt + 1)
    | .fail e => (.error e, attempt + 1)

/-- `executeSearchWithRetry`: the `for (attempt = 0; attempt <= MAX_RETRIES; ...)`
loop, returning the result and the number of attempts performed. -/
def executeSearchWithRetry (env : Nat → ApiOutcome) (opts : SlackSearchOptions) :
    Except ThrownError SlackSearchResponse × Nat :=
  retryLoop env opts (MAX_RETRIES + 1) 0

/-- An outcome is authentication-classified when the gateway's
classification chain lands on authentication for it: a (non-rate-limit)
failed response with an authentication error code, or an exception whose
message mentions an authentication error code. -/
def authClassified (o : ApiOutcome) : Bool :=
  match o with
  | .response r => !isRateLimitError r && isAuthenticationError r
  | .exception e => isAuthenticationErrorMessage (getErrorMessage e)

/-- Channel object of a `conversations.info` result. -/
structure InfoChannel where
  name : Option String
  deriving DecidableEq

/-- Result shape of `conversations.info`. -/
structure ConversationsInfoResult where
  ok : Bool
  channel : Option InfoChannel
  error : Option String
  deriving DecidableEq

/-- Wrapped failure message of `channelName`. -/
def channelInfoFailureMessage (detail : String) : String :=
  "エラー: チャンネル情報の取得に失敗しました。\n" ++ detail

/-- `channelName` given the upstream `conversations.info` result: reject
a failed or channel-less result; otherwise return the channel's `name`,
falling back to the requested `channelId` when the name is absent or
empty (`channelInfoResult.channel.name || channelId`). -/
def channelName (channelId : String) (res : ConversationsInfoResult) :
    Except String String :=
  if !res.ok || res.channel.isNone then
    .error (channelInfoFailureMessage
      (channelInfoFailureMessage
        (match res.error with
         | some e => if e = "" then "不明なエラー" else e
         | none => "不明なエラー")))
  else
    match res.channel with
    | some ch =>
      .ok (match ch.name with
           | some n => if n = "" then channelId else n
           | none => channelId)
    | none => .error (channelInfoFailureMessage "不明なエラー")

end SlackAPIClient

/-! ### SearchService (current revision of search-service.ts) -/

namespace SearchService

/-- `DEFAULT_MESSAGE_SCORE`: score used when a message has none. -/
def DEFAULT_MESSAGE_SCORE : ℚ := 0

/-- Search options accepted by `searchMessages`. -/
structure SearchOptions where
  query : String
  channelIds : Option (List String)
  maxResultCount : Option Int
  teamId : Option String
  deriving DecidableEq

/-- Internal search-result message (`Message`).  `channelName` is always
assigned a string by the conversion, so it is modelled as a plain
string. -/
structure Message where
  text : String
  timestamp : String
  channelId : String
  channelName : String
  userId : String
  userName : Option String
  threadTs : Option String
  score : Option ℚ
  deriving DecidableEq

/-- Search result (`SearchResult`). -/
structure SearchResult where
  messages : List Message
  totalResultCount : Int
  hasMoreResults : Bool
  deriving DecidableEq

/-- `tryParseSlackTimestamp`: empty-after-trim strings and unparsable
strings yield `none`. -/
def tryParseSlackTimestamp (slackTimestamp : String) : Option ℚ :=
  if jsTrim slackTimestamp = "" then none
  else parseFloatQ slackTimestamp

/-- `timestampToISO8601`: the ISO-8601 rendering of a platform timestamp,
or the empty string when the timestamp does not parse. -/
def timestampToISO8601 (slackTimestamp : String) : String :=
  match tryParseSlackTimestamp slackTimestamp with
  | none => ""
  | some q => dateToISOStringFromMs (jsTimeValueMs q)

/-- The collaborators of the search service, as resolution and search
oracles (`ISlackClient.channelName` / `ISlackClient.searchMessages`):
a request-scoped map from inputs to what each upstream call produces. -/
structure SearchEnv where
  channelName : String → Except String String
  searchApi : SlackSearchOptions → Except String SlackSearchResponse

/-- `channelNames`: resolve every identifier independently
(`Promise.allSettled`), keep the successful names in input order, drop
(and log) the failures; the explicit all-failed branch returns the empty
list so the caller falls back to an unscoped search. -/
def channelNames (env : SearchEnv) (channelIds : List String) : List String :=
  let results := channelIds.map fun channelId => env.channelName channelId
  let successfulNames := results.filterMap Except.toOption
  if successfulNames.length = 0 then [] else successfulNames

/-- `slackSearchQueryWithChannel`: append the `in:<channelName>` clause. -/
def slackSearchQueryWithChannel (baseQuery channelNameStr : String) : String :=
  baseQuery ++ " in:" ++ channelNameStr

/-- `extractThreadTsFromPermalink`: best-effort query-parameter lookup of
`thread_ts` (models `new URL(permalink).searchParams.get('thread_ts')`
for well-formed absolute URLs; the empty value is turned into `none` by
the source's `|| undefined`). -/
def extractThreadTsFromPermalink (permalink : String) : Option String :=
  if permalink = "" then none
  else
    match permalink.splitOn "?" with
    | _ :: queryPart :: _ =>
      let query := (queryPart.splitOn "#").headD ""
      let params := query.splitOn "&"
      match params.filterMap (fun p =>
        match p.splitOn "=" with
        | "thread_ts" :: v :: _ => some v
        | _ => none) with
      | [] => none
      | v :: _ => if v = "" then none else some v
    | _ => none

/-- `convertSlackMatchesToMessages` (service side): envelope matches to
internal `Message`s.  On typed envelopes the `?? ''` defaults of the
source are identities and the fields carry over directly. -/
def convertSlackMatchesToMessages (matchesArg : Option (List SlackMessage)) :
    List Message :=
  (matchesArg.getD []).map fun mt =>
    { text := mt.text
      timestamp := timestampToISO8601 mt.ts
      channelId := mt.channelId
      channelName := mt.channelName
      userId := mt.user
      userName := mt.username
      score := mt.score
      threadTs := extractThreadTsFromPermalink mt.permalink }

/-- Effective score of a message in the merge sort (`score ?? 0`). -/
def effScore (m : Message) : ℚ :=
  m.score.getD DEFAULT_MESSAGE_SCORE

/-- Comparator of the merged sort: `a` may stay before `b` iff
`scoreB - scoreA <= 0`, i.e. descending by effective score.  A stable
sort with this relation is the ES2019+ `Array.prototype.sort`. -/
def scoreDescLe (a b : Message) : Bool :=
  decide (effScore b ≤ effScore a)

/-- The matches of a response as read by `sortMessagesByScore`
(`response.messages.matches`; only called on validated responses, where
both levels are present). -/
def matchesOfResponse (r : SlackSearchResponse) : Option (List SlackMessage) :=
  r.messages.bind (·.«matches»)

/-- `sortMessagesByScore`: concatenate the converted matches of all
responses in order, then stable-sort descending by effective score. -/
def sortMessagesByScore (responses : List SlackSearchResponse) : List Message :=
  List.mergeSort
    (responses.flatMap fun r => convertSlackMatchesToMessages (matchesOfResponse r))
    scoreDescLe

/-- `isValidSearchResponse` on a possibly-`null` response. -/
def isValidSearchResponse (response : Option SlackSearchResponse) : Bool :=
  match response with
  | none => false
  | some r =>
    r.isSuccess && r.messages.isSome && (r.messages.bind (·.«matches»)).isSome

/-- `hasMorePages`: a paging block is present and reports further pages. -/
def hasMorePages (paging : Option SlackPaging) : Bool :=
  match paging with
  | none => false
  | some p => decide (p.pageNumber < p.totalPageCount)

/-- `calculateTotalResultCount`: sum of the reported totals. -/
def calculateTotalResultCount (responses : List SlackSearchResponse) : Int :=
  responses.foldl (fun sum r => sum + ((r.messages.map (·.totalResultCount)).getD 0)) 0

/-- `calculateHasMoreResults`: true when some response's paging reports
more pages, else — only when `maxResultCount` was supplied — when the
merged message count exceeds it. -/
def calculateHasMoreResults (responses : List SlackSearchResponse)
    (allMessagesLength : Nat) (maxResultCount : Option Int) : Bool :=
  let hasMoreResultsFromPaging :=
    responses.any fun r => hasMorePages (r.messages.bind (·.paging))
  if hasMoreResultsFromPaging then true
  else
    match maxResultCount with
    | none => false
    | some m => decide ((allMessagesLength : Int) > m)

/-- `sortedMessages.slice(0, maxResultCount)` under the truthiness test
`options.maxResultCount ? _ : _`: `none` and `some 0` leave the list
untruncated; a negative count keeps all but the last `|m|` elements
(JS `slice` end-offset semantics). -/
def truncateMessages (sortedMessages : List Message) (maxResultCount : Option Int) :
    List Message :=
  match maxResultCount with
  | none => sortedMessages
  | some m =>
    if m = 0 then sortedMessages
    else if 0 ≤ m then sortedMessages.take m.toNat
    else sortedMessages.take ((sortedMessages.length : Int) + m).toNat

/-- `mergeAndBuildResult`: filter the per-channel responses down to the
valid ones, merge and sort their messages, and assemble the result. -/
def mergeAndBuildResult (responses : List (Option SlackSearchResponse))
    (options : SearchOptions) : SearchResult :=
  let validResponses := (responses.filter isValidSearchResponse).filterMap id
  let sortedMessages := sortMessagesByScore validResponses
  { messages := truncateMessages sortedMessages options.maxResultCount
    totalResultCount := calculateTotalResultCount validResponses
    hasMoreResults :=
      calculateHasMoreResults validResponses sortedMessages.length
        options.maxResultCount }

/-- `isInvalidChannelError`. -/
def isInvalidChannelError (error : String) : Bool :=
  strIncludes error "channel_not_found" || strIncludes error "invalid_channel"

/-- Message thrown for an invalid-channel search error. -/
def invalidChannelMessage (error : String) : String :=
  "エラー: 指定されたチャンネルIDが無効です。\n有効なチャンネルIDを指定してください。\nエラー詳細: " ++ error

/-- Message thrown for other explicit search errors. -/
def searchFailedMessage (error : String) : String :=
  "エラー: Slack API の検索に失敗しました。\n" ++ error

/-- Message thrown for a structurally invalid envelope. -/
def invalidResponseMessage : String := "エラー: Slack API のレスポンス形式が不正です。"

/-- `handleSearchResponseError`: always throws, with an invalid-channel
specific message when the error code says so. -/
def handleSearchResponseError (error : String) : Except String SearchResult :=
  if isInvalidChannelError error then .error (invalidChannelMessage error)
  else .error (searchFailedMessage error)

/-- `convertSearchResponseToResult`: envelope to `SearchResult` (defaults
applied when the validated fields are re-read defensively). -/
def convertSearchResponseToResult (searchResponse : SlackSearchResponse) :
    SearchResult :=
  let messages := convertSlackMatchesToMessages (matchesOfResponse searchResponse)
  { messages := messages
    totalResultCount :=
      match searchResponse.messages.map (·.totalResultCount) with
      | some t => t
      | none => (messages.length : Int)
    hasMoreResults := hasMorePages (searchResponse.messages.bind (·.paging)) }

/-- `searchResponseToResult`: validate the envelope shape (success flag,
then the `matches` array), then convert. -/
def searchResponseToResult (searchResponse : SlackSearchResponse) :
    Except String SearchResult :=
  if searchResponse.isSuccess ≠ true then
    match searchResponse.error with
    | some e => handleSearchResponseError e
    | none => .error invalidResponseMessage
  else if (matchesOfResponse searchResponse).isNone then
    .error invalidResponseMessage
  else
    .ok (convertSearchResponseToResult searchResponse)

/-- `searchSingleChannel`: one unscoped upstream search; an upstream
failure is logged and rethrown.  Also returns the issued call. -/
def searchSingleChannel (env : SearchEnv) (baseQuery : String)
    (options : SearchOptions) :
    Except String SearchResult × List SlackSearchOptions :=
  let slackOptions : SlackSearchOptions :=
    ⟨baseQuery, options.maxResultCount, options.teamId⟩
  match env.searchApi slackOptions with
  | .ok r => (searchResponseToResult r, [slackOptions])
  | .error e => (.error e, [slackOptions])

/-- `searchMultipleChannels`: one scoped search per resolved channel name;
a failed call is logged and replaced by `null`.  Also returns the issued
calls in order. -/
def searchMultipleChannels (env : SearchEnv) (baseQuery : String)
    (channelNamesList : List String) (options : SearchOptions) :
    List (Option SlackSearchResponse) × List SlackSearchOptions :=
  let perChannel := channelNamesList.map fun channelNameStr =>
    let slackOptions : SlackSearchOptions :=
      ⟨slackSearchQueryWithChannel baseQuery channelNameStr,
       options.maxResultCount, options.teamId⟩
    (Except.toOption (env.searchApi slackOptions), slackOptions)
  (perChannel.map (·.1), perChannel.map (·.2))

/-- `searchInChannels`: no resolved names → single unscoped search;
otherwise fan out and merge. -/
def searchInChannels (env : SearchEnv) (baseQuery : String)
    (channelNamesList : List String) (options : SearchOptions) :
    Except String SearchResult × List SlackSearchOptions :=
  if channelNamesList.length = 0 then
    searchSingleChannel env baseQuery options
  else
    let fanout := searchMultipleChannels env baseQuery channelNamesList options
    (.ok (mergeAndBuildResult fanout.1 options), fanout.2)

/-- Validation message for an empty query. -/
def emptyQueryMessage : String := "エラー: 検索クエリが空です。\n検索クエリを指定してください。"

/-- Validation message for blank channel identifiers. -/
def invalidChannelIdsMessage (invalidChannelIds : List String) : String :=
  "エラー: 無効なチャンネルIDが指定されました。\n有効なチャンネルIDを指定してください。\n無効なチャンネルID: " ++ String.intercalate ", " invalidChannelIds

/-- `searchMessages`: validate the query and the supplied channel
identifiers, then search unscoped (no identifiers) or resolve names and
search per channel (falling back to unscoped when nothing resolves).
The second component lists every upstream search call issued. -/
def searchMessages (env : SearchEnv) (options : SearchOptions) :
    Except String SearchResult × List SlackSearchOptions :=
  if jsTrim options.query = "" then (.error emptyQueryMessage, [])
  else
    let invalidChannelIds :=
      (options.channelIds.getD []).filter fun id => jsTrim id = ""
    if options.channelIds.isSome ∧ invalidChannelIds ≠ [] then
      (.error (invalidChannelIdsMessage invalidChannelIds), [])
    else
      let baseQuery := jsTrim options.query
      match options.channelIds with
      | none => searchInChannels env baseQuery [] options
      | some ids =>
        if ids.length = 0 then searchInChannels env baseQuery [] options
        else
          let validChannelIds := ids.filter fun id => ¬(jsTrim id = "")
          if validChannelIds.length = 0 then
            searchInChannels env baseQuery [] options
          else
            searchInChannels env baseQuery (channelNames env validChannelIds)
              options

end SearchService

namespace SearchService

/-- Edit metadata of a raw thread message (`msg.edited`). -/
structure EditedInfo where
  ts : String
  deriving DecidableEq

/-- A raw message of a `conversations.replies` page, with the fields the
mapping reads. -/
structure RawThreadMessage where
  text : String
  ts : String
  user : Option String
  username : Option String
  edited : Option EditedInfo
  subtype : Option String
  deriving DecidableEq

/-- Page metadata of a `conversations.replies` response. -/
structure ResponseMetadata where
  next_cursor : Option String
  deriving DecidableEq

/-- Minimal `conversations.replies` response
(`ConversationsRepliesResponse`). -/
structure ConversationsRepliesResponse where
  ok : Option Bool
  messages : Option (List RawThreadMessage)
  response_metadata : Option ResponseMetadata
  deriving DecidableEq

/-- Thread message (`ThreadMessage`). -/
structure ThreadMessage where
  text : String
  timestamp : String
  ts : String
  channelId : String
  channelName : Option String
  userId : Option String
  userName : Option String
  threadTs : Option String
  isEdited : Bool
  isDeleted : Bool
  editedTimestamp : Option String
  deriving DecidableEq

/-- Result of `getThreadReplies`. -/
structure ThreadResult where
  parent : Option ThreadMessage
  replies : List ThreadMessage
  nextCursor : Option String
  hasMore : Bool
  deriving DecidableEq

/-- Requested reply order. -/
inductive ThreadOrder where
  | oldest
  | newest
  deriving DecidableEq

/-- Mapping of one raw thread message (the body of `mapSlackMessages`):
`isEdited` iff edit metadata is present, `editedTimestamp` its ISO
rendering in that case, `isDeleted` iff the deletion-marker subtype is
carried. -/
def mapSlackMessage (channelId threadTs : String) (msg : RawThreadMessage) :
    ThreadMessage :=
  { text := msg.text
    timestamp := timestampToISO8601 msg.ts
    ts := msg.ts
    channelId := channelId
    channelName := none
    userId := msg.user
    userName := msg.username
    threadTs := some threadTs
    isEdited := msg.edited.isSome
    editedTimestamp :=
      match msg.edited with
      | some e => some (timestampToISO8601 e.ts)
      | none => none
    isDeleted := msg.subtype = some "message_deleted" }

/-- `mapSlackMessages`. -/
def mapSlackMessages (messages : List RawThreadMessage)
    (channelId threadTs : String) : List ThreadMessage :=
  messages.map (mapSlackMessage channelId threadTs)

/-- Comparator of the reply sort: `a` may stay before `b` iff
`parseFloat(a.ts) - parseFloat(b.ts) <= 0`; a `NaN` comparison value is
treated as `0` (ES `CompareArrayElements`), letting the pair keep its
order. -/
def tsAscLe (a b : ThreadMessage) : Bool :=
  match parseFloatQ a.ts, parseFloatQ b.ts with
  | some x, some y => decide (x ≤ y)
  | _, _ => true

/-- The pure core of `getThreadReplies` on a fetched page: map the raw
messages, split off the parent by exact native-timestamp match, sort the
remaining replies ascending by parsed timestamp, reverse for
`order = newest`, and read the continuation cursor. -/
def getThreadRepliesCore (slackRes : ConversationsRepliesResponse)
    (channelId threadTs : String) (order : Option ThreadOrder) : ThreadResult :=
  let slackMessages := slackRes.messages.getD []
  let mapped := mapSlackMessages slackMessages channelId threadTs
  let nextCursor := slackRes.response_metadata.bind (·.next_cursor)
  let hasMore :=
    match nextCursor with
    | some s => s ≠ ""
    | none => false
  let parent := mapped.find? fun m => m.ts = threadTs
  let replies0 := mapped.filter fun m => ¬(m.ts = threadTs)
  let sorted := List.mergeSort replies0 tsAscLe
  { parent := parent
    replies := if order = some ThreadOrder.newest then sorted.reverse else sorted
    nextCursor := nextCursor
    hasMore := hasMore }

/-- Validation message for a blank channel identifier. -/
def threadChannelIdMessage : String := "エラー: channelId が指定されていません"

/-- Validation message for a blank thread timestamp. -/
def threadTsMessage : String := "エラー: threadTs が指定されていません"

/-- `getThreadReplies`: validate the inputs, fetch exactly one page (the
outcome of that single upstream call is the `fetch` argument; a fetch
failure is logged and rethrown), and process it. -/
def getThreadReplies (fetch : Except String ConversationsRepliesResponse)
    (channelId threadTs : String) (order : Option ThreadOrder) :
    Except String ThreadResult :=
  if jsTrim channelId = "" then .error threadChannelIdMessage
  else if jsTrim threadTs = "" then .error threadTsMessage
  else
    match fetch with
    | .error e => .error e
    | .ok slackRes => .ok (getThreadRepliesCore slackRes channelId threadTs order)

end SearchService

/-! ### Helper lemmas (shared) -/

/-- A string with a non-empty second append component is non-empty. -/
theorem string_append_ne_empty (a b : String) (hb : b.length ≠ 0) : a ++ b ≠ "" := by
  intro h
  have hl := congrArg String.length h
  rw [String.length_append] at hl
  have h0 : ("" : String).length = 0 := rfl
  omega

/-- The ISO rendering of a time value is never the empty string. -/
theorem dateToISOStringFromMs_ne_empty (ms : Int) : dateToISOStringFromMs ms ≠ "" := by
  unfold dateToISOStringFromMs
  apply string_append_ne_empty
  decide

/-- The timestamp rendering is non-empty exactly when the timestamp
parses. -/
theorem timestampToISO8601_ne_empty_iff (s : String) :
    SearchService.timestampToISO8601 s ≠ "" ↔
      SearchService.tryParseSlackTimestamp s ≠ none := by
  unfold SearchService.timestampToISO8601
  cases h : SearchService.tryParseSlackTimestamp s with
  | none => simp
  | some q => simpa using dateToISOStringFromMs_ne_empty (jsTimeValueMs q)

/-- A string contains its own append suffix. -/
theorem strIncludes_append_right (a b : String) : strIncludes (a ++ b) b = true := by
  unfold strIncludes
  rw [String.data_append]
  exact decide_eq_true ⟨a.data, [], by simp⟩

/-! ### Claim C7 -/

/-- Claim C7 counterexample: a raw message carrying edit metadata whose
edit timestamp does not parse (`edited.ts = "abc"`) is mapped with
`isEdited = true` but an *empty* `editedTimestamp`, contradicting the
claimed "non-empty editedTimestampIso8601" for every edited message. -/
theorem mapSlackMessage_edit_empty_timestamp_cex :
    (SearchService.mapSlackMessage "C1" "100"
        ⟨"hi", "101", none, none, some ⟨"abc"⟩, none⟩).isEdited = true ∧
      (SearchService.mapSlackMessage "C1" "100"
        ⟨"hi", "101", none, none, some ⟨"abc"⟩, none⟩).editedTimestamp = some "" := by
  constructor
  · rfl
  · decide

/-- Claim C7 (amended): a mapped thread message has `isDeleted = true`
exactly when the raw message carries the `message_deleted` subtype, and
`isEdited = true` exactly when edit metadata is present; an edited
message's `editedTimestampIso8601` is the ISO-8601 rendering of the edit
metadata's timestamp, which is non-empty exactly when that timestamp
parses (and the empty string otherwise). -/
theorem mapSlackMessage_edit_delete_flags (channelId threadTs : String)
    (msg : SearchService.RawThreadMessage) :
    ((SearchService.mapSlackMessage channelId threadTs msg).isDeleted = true ↔
      msg.subtype = some "message_deleted") ∧
    ((SearchService.mapSlackMessage channelId threadTs msg).isEdited = true ↔
      msg.edited.isSome) ∧
    (∀ e, msg.edited = some e →
      (SearchService.mapSlackMessage channelId threadTs msg).editedTimestamp =
        some (SearchService.timestampToISO8601 e.ts) ∧
      ((SearchService.timestampToISO8601 e.ts ≠ "") ↔
        SearchService.tryParseSlackTimestamp e.ts ≠ none)) := by
  refine ⟨?_, ?_, ?_⟩
  · simp [SearchService.mapSlackMessage]
  · simp [SearchService.mapSlackMessage]
  · intro e he
    refine ⟨?_, timestampToISO8601_ne_empty_iff e.ts⟩
    simp [SearchService.mapSlackMessage, he]

/-- Claim C7 witness: evaluation of the amended claim on a concrete
edited and deleted message with a parsing edit timestamp. -/
theorem mapSlackMessage_edit_delete_flags_witness :
    ((SearchService.mapSlackMessage "C1" "100"
        ⟨"bye", "101", some "U1", none, some ⟨"102.5"⟩,
          some "message_deleted"⟩).isDeleted = true ↔
      (some "message_deleted" : Option String) = some "message_deleted") ∧
    ((SearchService.mapSlackMessage "C1" "100"
        ⟨"bye", "101", some "U1", none, some ⟨"102.5"⟩,
          some "message_deleted"⟩).isEdited = true ↔
      (some (⟨"102.5"⟩ : SearchService.EditedInfo)).isSome) ∧
    (∀ e, (some (⟨"102.5"⟩ : SearchService.EditedInfo)) = some e →
      (SearchService.mapSlackMessage "C1" "100"
          ⟨"bye", "101", some "U1", none, some ⟨"102.5"⟩,
            some "message_deleted"⟩).editedTimestamp =
        some (SearchService.timestampToISO8601 e.ts) ∧
      ((SearchService.timestampToISO8601 e.ts ≠ "") ↔
        SearchService.tryParseSlackTimestamp e.ts ≠ none)) :=
  mapSlackMessage_edit_delete_flags "C1" "100"
    ⟨"bye", "101", some "U1", none, some ⟨"102.5"⟩, some "message_deleted"⟩

/-! ### Claim C8 -/

/-- Claim C8 counterexample: with a present `retry-after` header that
parses to `0` (at attempt 0), the computed delay is the backoff value
1000 ms, not the claimed `0 * 1000 = 0` ms. -/
theorem calculateRetryDelayMs_zero_header_cex :
    parseIntJS "0" = some 0 ∧
      SlackAPIClient.calculateRetryDelayMs (some (Sum.inl "0")) 0 = 1000 ∧
      SlackAPIClient.calculateRetryDelayMs (some (Sum.inl "0")) 0 ≠ 0 * 1000 := by
  refine ⟨by decide, by decide, by decide⟩

/-- The string value the delay computation reads from the `retry-after`
header (first element when the header is an array). -/
def retryAfterHeaderValue (retryAfterHeader : Option (String ⊕ List String)) :
    Option String :=
  match retryAfterHeader with
  | none => none
  | some (Sum.inl s) => some s
  | some (Sum.inr l) => l.head?

/-- Claim C8 (amended): the wait before the next attempt equals the
platform-supplied retry-after value converted to milliseconds whenever
that value is present, non-empty and parses to a *non-zero* integer;
when the value is absent, empty, unparsable, or parses to `0`, the wait
equals `BASE_DELAY_MS * 2 ^ attemptNumber`. -/
theorem calculateRetryDelayMs_spec
    (retryAfterHeader : Option (String ⊕ List String)) (attempt : Nat) :
    (∀ s n, retryAfterHeaderValue retryAfterHeader = some s → s ≠ "" →
      parseIntJS s = some n → n ≠ 0 →
      SlackAPIClient.calculateRetryDelayMs retryAfterHeader attempt = n * 1000) ∧
    ((retryAfterHeaderValue retryAfterHeader = none ∨
      retryAfterHeaderValue retryAfterHeader = some "" ∨
      (∃ s, retryAfterHeaderValue retryAfterHeader = some s ∧
        (parseIntJS s = none ∨ parseIntJS s = some 0))) →
      SlackAPIClient.calculateRetryDelayMs retryAfterHeader attempt =
        SlackAPIClient.BASE_DELAY_MS * 2 ^ attempt) := by
  have hunf : SlackAPIClient.calculateRetryDelayMs retryAfterHeader attempt =
      (match (match retryAfterHeaderValue retryAfterHeader with
              | some s => if s ≠ "" then parseIntJS s else none
              | none => none : Option Int) with
       | some n => if n ≠ 0 then n * 1000
                   else SlackAPIClient.BASE_DELAY_MS * 2 ^ attempt
       | none => SlackAPIClient.BASE_DELAY_MS * 2 ^ attempt) := by
    cases retryAfterHeader with
    | none => rfl
    | some v => cases v with
      | inl s => rfl
      | inr l => rfl
  constructor
  · intro s n hs hne hp hn
    rw [hunf, hs]
    simp [hne, hp, hn]
  · intro h
    rw [hunf]
    rcases h with h | h | ⟨s, hs, hp⟩
    · rw [h]
    · rw [h]; simp
    · rw [hs]
      by_cases he : s = ""
      · simp [he]
      · rcases hp with hp | hp <;> simp [he, hp]

/-- Claim C8 witness: a header of `"2"` at attempt 1 waits 2000 ms, and
an absent header at attempt 1 waits `1000 * 2 ^ 1` ms. -/
theorem calculateRetryDelayMs_spec_witness :
    SlackAPIClient.calculateRetryDelayMs (some (Sum.inl "2")) 1 = 2 * 1000 ∧
      SlackAPIClient.calculateRetryDelayMs none 1 =
        SlackAPIClient.BASE_DELAY_MS * 2 ^ 1 :=
  ⟨(calculateRetryDelayMs_spec (some (Sum.inl "2")) 1).1 "2" 2 (by decide)
      (by decide) (by decide) (by decide),
    (calculateRetryDelayMs_spec none 1).2 (Or.inl (by decide))⟩

/-! ### Claim C9 -/

/-- Claim C9: a successful `conversations.info` lookup whose channel
object lacks a name (absent or empty) makes `channelName` return the
requested channel identifier itself. -/
theorem channelName_falls_back_to_id (channelId : String)
    (res : SlackAPIClient.ConversationsInfoResult)
    (ch : SlackAPIClient.InfoChannel) (hok : res.ok = true)
    (hch : res.channel = some ch) (hname : ch.name = none ∨ ch.name = some "") :
    SlackAPIClient.channelName channelId res = .ok channelId := by
  unfold SlackAPIClient.channelName
  rcases hname with hn | hn <;> simp [hok, hch, hn]

/-- Claim C9 witness: fallback evaluated on a concrete nameless channel. -/
theorem channelName_falls_back_to_id_witness :
    SlackAPIClient.channelName "C123"
        ⟨true, some ⟨none⟩, none⟩ = .ok "C123" :=
  channelName_falls_back_to_id "C123" ⟨true, some ⟨none⟩, none⟩ ⟨none⟩ rfl rfl
    (Or.inl rfl)

/-! ### Claims C4, C5, C10 -/

/-- The responses surviving `mergeAndBuildResult`'s validity filter. -/
def validResponsesOf (responses : List (Option SlackSearchResponse)) :
    List SlackSearchResponse :=
  (responses.filter SearchService.isValidSearchResponse).filterMap id

/-- The merged-before-truncation message sequence of a fan-out. -/
def mergedMessagesOf (responses : List (Option SlackSearchResponse)) :
    List SearchService.Message :=
  SearchService.sortMessagesByScore (validResponsesOf responses)

/-- Whether some surviving response's paging block reports more pages. -/
def anyPagingMore (responses : List (Option SlackSearchResponse)) : Bool :=
  (validResponsesOf responses).any fun r =>
    SearchService.hasMorePages (r.messages.bind (·.paging))

/-- Claim C4: with a supplied positive `maxResultCount`, the returned
messages are the merged, score-sorted sequence truncated to at most that
many elements, and `hasMoreResults` is true iff some surviving response
reports more pages or the merged-before-truncation count exceeds
`maxResultCount`; with no `maxResultCount`, the sequence is untruncated
and only the paging condition applies. -/
theorem mergeAndBuildResult_truncate_hasMore
    (responses : List (Option SlackSearchResponse))
    (options : SearchService.SearchOptions) :
    (∀ m : Int, options.maxResultCount = some m → 0 < m →
      (SearchService.mergeAndBuildResult responses options).messages =
        (mergedMessagesOf responses).take m.toNat ∧
      ((SearchService.mergeAndBuildResult responses options).hasMoreResults = true ↔
        anyPagingMore responses = true ∨
          m < ((mergedMessagesOf responses).length : Int))) ∧
    (options.maxResultCount = none →
      (SearchService.mergeAndBuildResult responses options).messages =
        mergedMessagesOf responses ∧
      ((SearchService.mergeAndBuildResult responses options).hasMoreResults = true ↔
        anyPagingMore responses = true)) := by
  constructor
  · intro m hm hpos
    unfold SearchService.mergeAndBuildResult SearchService.truncateMessages
      SearchService.calculateHasMoreResults
    rw [hm]
    constructor
    · have h0 : ¬(m = 0) := by omega
      have h1 : 0 ≤ m := by omega
      simp only [h0, if_false, h1, if_true]
      rfl
    · by_cases hp : anyPagingMore responses = true
      · have : ((validResponsesOf responses).any fun r =>
            SearchService.hasMorePages (r.messages.bind (·.paging))) = true := hp
        simp only [validResponsesOf] at this
        simp [this, hp]
      · have : ((validResponsesOf responses).any fun r =>
            SearchService.hasMorePages (r.messages.bind (·.paging))) = false :=
          Bool.eq_false_iff.mpr hp
        simp only [validResponsesOf] at this
        simp only [this, if_false, Bool.false_eq_true, false_or]
        rw [decide_eq_true_iff]
        constructor
        · intro h2
          right
          exact h2
        · intro h2
          rcases h2 with h2 | h2
          · exact absurd h2 hp
          · exact h2
  · intro hm
    unfold SearchService.mergeAndBuildResult SearchService.truncateMessages
      SearchService.calculateHasMoreResults
    rw [hm]
    constructor
    · rfl
    · by_cases hp : anyPagingMore responses = true
      · have : ((validResponsesOf responses).any fun r =>
            SearchService.hasMorePages (r.messages.bind (·.paging))) = true := hp
        simp only [validResponsesOf] at this
        simp [this, hp]
      · have : ((validResponsesOf responses).any fun r =>
            SearchService.hasMorePages (r.messages.bind (·.paging))) = false :=
          Bool.eq_false_iff.mpr hp
        simp only [validResponsesOf] at this
        simp [this, hp]

/-- Claim C4 witness: one surviving response with two messages and a
paging block reporting more pages, `maxResultCount = 1`. -/
theorem mergeAndBuildResult_truncate_hasMore_witness :
    (SearchService.mergeAndBuildResult
        [some ⟨true, "q", some ⟨5, some
          [⟨"message", "C1", "eng", "U1", none, "a", "", "", some 2⟩,
           ⟨"message", "C1", "eng", "U2", none, "b", "", "", none⟩], some ⟨2, 5, 1, 3⟩⟩, none⟩]
        ⟨"q", none, some 1, none⟩).messages =
      (mergedMessagesOf
        [some ⟨true, "q", some ⟨5, some
          [⟨"message", "C1", "eng", "U1", none, "a", "", "", some 2⟩,
           ⟨"message", "C1", "eng", "U2", none, "b", "", "", none⟩], some ⟨2, 5, 1, 3⟩⟩, none⟩]).take
        (1 : Int).toNat ∧
    ((SearchService.mergeAndBuildResult
        [some ⟨true, "q", some ⟨5, some
          [⟨"message", "C1", "eng", "U1", none, "a", "", "", some 2⟩,
           ⟨"message", "C1", "eng", "U2", none, "b", "", "", none⟩], some ⟨2, 5, 1, 3⟩⟩, none⟩]
        ⟨"q", none, some 1, none⟩).hasMoreResults = true ↔
      anyPagingMore
        [some ⟨true, "q", some ⟨5, some
          [⟨"message", "C1", "eng", "U1", none, "a", "", "", some 2⟩,
           ⟨"message", "C1", "eng", "U2", none, "b", "", "", none⟩], some ⟨2, 5, 1, 3⟩⟩, none⟩] = true ∨
        (1 : Int) < ((mergedMessagesOf
          [some ⟨true, "q", some ⟨5, some
            [⟨"message", "C1", "eng", "U1", none, "a", "", "", some 2⟩,
             ⟨"message", "C1", "eng", "U2", none, "b", "", "", none⟩], some ⟨2, 5, 1, 3⟩⟩, none⟩]).length : Int)) :=
  (mergeAndBuildResult_truncate_hasMore
      [some ⟨true, "q", some ⟨5, some
        [⟨"message", "C1", "eng", "U1", none, "a", "", "", some 2⟩,
         ⟨"message", "C1", "eng", "U2", none, "b", "", "", none⟩], some ⟨2, 5, 1, 3⟩⟩, none⟩]
      ⟨"q", none, some 1, none⟩).1 1 rfl (by decide)

/-- Claim C10: with `maxResultCount = 0` (falsy under the source's
truthiness test), no truncation is applied, and `hasMoreResults` is true
whenever at least one merged message exists. -/
theorem mergeAndBuildResult_zero_max
    (responses : List (Option SlackSearchResponse))
    (options : SearchService.SearchOptions)
    (h : options.maxResultCount = some 0) :
    (SearchService.mergeAndBuildResult responses options).messages =
      mergedMessagesOf responses ∧
    (1 ≤ (mergedMessagesOf responses).length →
      (SearchService.mergeAndBuildResult responses options).hasMoreResults = true) := by
  unfold SearchService.mergeAndBuildResult SearchService.truncateMessages
    SearchService.calculateHasMoreResults
  rw [h]
  constructor
  · simp
    rfl
  · intro hlen
    by_cases hp : ((responses.filter SearchService.isValidSearchResponse).filterMap id).any
        (fun r => SearchService.hasMorePages (r.messages.bind (·.paging))) = true
    · simp [hp]
    · have hb : ((responses.filter SearchService.isValidSearchResponse).filterMap id).any
          (fun r => SearchService.hasMorePages (r.messages.bind (·.paging))) = false :=
        Bool.eq_false_iff.mpr hp
      simp only [hb, Bool.false_eq_true, if_false, decide_eq_true_iff]
      have : 1 ≤ ((responses.filter SearchService.isValidSearchResponse).filterMap
          id |> SearchService.sortMessagesByScore).length := hlen
      omega

/-- Claim C10 witness: one surviving response with one message and no
paging block, `maxResultCount = 0`. -/
theorem mergeAndBuildResult_zero_max_witness :
    (SearchService.mergeAndBuildResult
        [some ⟨true, "q", some ⟨1, some
          [⟨"message", "C1", "eng", "U1", none, "a", "", "", none⟩], none⟩, none⟩]
        ⟨"q", none, some 0, none⟩).messages =
      mergedMessagesOf
        [some ⟨true, "q", some ⟨1, some
          [⟨"message", "C1", "eng", "U1", none, "a", "", "", none⟩], none⟩, none⟩] ∧
    (SearchService.mergeAndBuildResult
        [some ⟨true, "q", some ⟨1, some
          [⟨"message", "C1", "eng", "U1", none, "a", "", "", none⟩], none⟩, none⟩]
        ⟨"q", none, some 0, none⟩).hasMoreResults = true :=
  ⟨(mergeAndBuildResult_zero_max
      [some ⟨true, "q", some ⟨1, some
        [⟨"message", "C1", "eng", "U1", none, "a", "", "", none⟩], none⟩, none⟩]
      ⟨"q", none, some 0, none⟩ rfl).1,
   (mergeAndBuildResult_zero_max
      [some ⟨true, "q", some ⟨1, some
        [⟨"message", "C1", "eng", "U1", none, "a", "", "", none⟩], none⟩, none⟩]
      ⟨"q", none, some 0, none⟩ rfl).2
      (by unfold mergedMessagesOf SearchService.sortMessagesByScore
          rw [List.length_mergeSort]
          decide)⟩

/-- Claim C5: the merged message sequence is a stable descending sort by
effective score (absent score = 0) of the channel-order concatenation:
it is a permutation of the concatenation, pairwise non-increasing in
effective score, and any equal-score pair keeps its insertion order. -/
theorem sortMessagesByScore_stable_desc (responses : List SlackSearchResponse) :
    (SearchService.sortMessagesByScore responses).Perm
      (responses.flatMap fun r =>
        SearchService.convertSlackMatchesToMessages
          (SearchService.matchesOfResponse r)) ∧
    List.Pairwise
      (fun a b => SearchService.effScore b ≤ SearchService.effScore a)
      (SearchService.sortMessagesByScore responses) ∧
    ∀ a b, SearchService.effScore a = SearchService.effScore b →
      List.Sublist [a, b] (responses.flatMap fun r =>
        SearchService.convertSlackMatchesToMessages
          (SearchService.matchesOfResponse r)) →
      List.Sublist [a, b] (SearchService.sortMessagesByScore responses) := by
  have htrans : ∀ a b c : SearchService.Message,
      SearchService.scoreDescLe a b = true → SearchService.scoreDescLe b c = true →
      SearchService.scoreDescLe a c = true := by
    intro a b c hab hbc
    simp only [SearchService.scoreDescLe, decide_eq_true_iff] at hab hbc ⊢
    exact le_trans hbc hab
  have htot : ∀ a b : SearchService.Message,
      (SearchService.scoreDescLe a b || SearchService.scoreDescLe b a) = true := by
    intro a b
    simp only [SearchService.scoreDescLe, Bool.or_eq_true, decide_eq_true_iff]
    exact le_total _ _
  refine ⟨List.mergeSort_perm _ _, ?_, ?_⟩
  · have hs := List.sorted_mergeSort htrans htot
      (responses.flatMap fun r =>
        SearchService.convertSlackMatchesToMessages
          (SearchService.matchesOfResponse r))
    exact hs.imp fun hab => by
      simpa only [SearchService.scoreDescLe, decide_eq_true_iff] using hab
  · intro a b heq hsub
    exact List.pair_sublist_mergeSort htrans htot
      (by simp only [SearchService.scoreDescLe, decide_eq_true_iff]
          exact le_of_eq heq.symm) hsub

/-- Claim C5 witness: two equal-score messages from two responses keep
their order, and the merged list of a concrete fan-out is sorted. -/
theorem sortMessagesByScore_stable_desc_witness :
    List.Pairwise
      (fun a b => SearchService.effScore b ≤ SearchService.effScore a)
      (SearchService.sortMessagesByScore
        [⟨true, "q", some ⟨1, some
          [⟨"message", "C1", "eng", "U1", none, "a", "", "", some 1⟩], none⟩, none⟩,
         ⟨true, "q", some ⟨1, some
          [⟨"message", "C2", "ops", "U2", none, "b", "", "", some 1⟩], none⟩, none⟩]) ∧
    List.Sublist
      [⟨"a", "", "C1", "eng", "U1", none, none, some 1⟩,
       ⟨"b", "", "C2", "ops", "U2", none, none, some 1⟩]
      (SearchService.sortMessagesByScore
        [⟨true, "q", some ⟨1, some
          [⟨"message", "C1", "eng", "U1", none, "a", "", "", some 1⟩], none⟩, none⟩,
         ⟨true, "q", some ⟨1, some
          [⟨"message", "C2", "ops", "U2", none, "b", "", "", some 1⟩], none⟩, none⟩]) :=
  ⟨(sortMessagesByScore_stable_desc
      [⟨true, "q", some ⟨1, some
        [⟨"message", "C1", "eng", "U1", none, "a", "", "", some 1⟩], none⟩, none⟩,
       ⟨true, "q", some ⟨1, some
        [⟨"message", "C2", "ops", "U2", none, "b", "", "", some 1⟩], none⟩, none⟩]).2.1,
   (sortMessagesByScore_stable_desc
      [⟨true, "q", some ⟨1, some
        [⟨"message", "C1", "eng", "U1", none, "a", "", "", some 1⟩], none⟩, none⟩,
       ⟨true, "q", some ⟨1, some
        [⟨"message", "C2", "ops", "U2", none, "b", "", "", some 1⟩], none⟩, none⟩]).2.2
      ⟨"a", "", "C1", "eng", "U1", none, none, some 1⟩
      ⟨"b", "", "C2", "ops", "U2", none, none, some 1⟩
      (by decide) (by decide)⟩

/-! ### Claims C3, C6 -/

/-- Claim C3: in a thread-replies result, the parent is exactly a fetched
message whose native timestamp equals the requested `threadTimestamp`:
a successful fetch is processed by the page core; no reply carries the
requested timestamp; the parent is absent iff no mapped message matches;
a returned parent matches and comes from the mapped messages; every
non-matching mapped message is still a reply; and with no match the
replies are exactly (a permutation of) all mapped messages. -/
theorem getThreadReplies_parent_split
    (res : SearchService.ConversationsRepliesResponse) (c t : String)
    (ord : Option SearchService.ThreadOrder) :
    (∀ fetch, fetch = Except.ok res → jsTrim c ≠ "" → jsTrim t ≠ "" →
      SearchService.getThreadReplies fetch c t ord =
        .ok (SearchService.getThreadRepliesCore res c t ord)) ∧
    (∀ m, m ∈ (SearchService.getThreadRepliesCore res c t ord).replies →
      m.ts ≠ t) ∧
    ((SearchService.getThreadRepliesCore res c t ord).parent = none ↔
      ∀ m ∈ SearchService.mapSlackMessages (res.messages.getD []) c t,
        m.ts ≠ t) ∧
    (∀ p, (SearchService.getThreadRepliesCore res c t ord).parent = some p →
      p.ts = t ∧ p ∈ SearchService.mapSlackMessages (res.messages.getD []) c t) ∧
    (∀ m, m ∈ SearchService.mapSlackMessages (res.messages.getD []) c t →
      m.ts ≠ t → m ∈ (SearchService.getThreadRepliesCore res c t ord).replies) ∧
    ((SearchService.getThreadRepliesCore res c t ord).parent = none →
      (SearchService.getThreadRepliesCore res c t ord).replies.Perm
        (SearchService.mapSlackMessages (res.messages.getD []) c t)) := by
  have hrep : (SearchService.getThreadRepliesCore res c t ord).replies =
      (if ord = some SearchService.ThreadOrder.newest then
        (List.mergeSort
          ((SearchService.mapSlackMessages (res.messages.getD []) c t).filter
            fun m => ¬(m.ts = t)) SearchService.tsAscLe).reverse
      else
        List.mergeSort
          ((SearchService.mapSlackMessages (res.messages.getD []) c t).filter
            fun m => ¬(m.ts = t)) SearchService.tsAscLe) := rfl
  have hpar : (SearchService.getThreadRepliesCore res c t ord).parent =
      (SearchService.mapSlackMessages (res.messages.getD []) c t).find?
        (fun m => m.ts = t) := rfl
  have hmem : ∀ m, m ∈ (SearchService.getThreadRepliesCore res c t ord).replies ↔
      m ∈ (SearchService.mapSlackMessages (res.messages.getD []) c t).filter
        (fun m => ¬(m.ts = t)) := by
    intro m
    rw [hrep]
    by_cases ho : ord = some SearchService.ThreadOrder.newest
    · simp [ho, List.mem_mergeSort]
    · simp [ho, List.mem_mergeSort]
  refine ⟨?_, ?_, ?_, ?_, ?_, ?_⟩
  · intro fetch hf hc ht
    subst hf
    unfold SearchService.getThreadReplies
    simp [hc, ht]
  · intro m hm
    have := (hmem m).mp hm
    rw [List.mem_filter] at this
    simpa using this.2
  · rw [hpar, List.find?_eq_none]
    constructor
    · intro h m hm
      simpa using h m hm
    · intro h m hm
      simpa using h m hm
  · intro p hp
    rw [hpar] at hp
    refine ⟨by simpa using List.find?_some hp, List.mem_of_find?_eq_some hp⟩
  · intro m hm hne
    exact (hmem m).mpr (List.mem_filter.mpr ⟨hm, by simpa using hne⟩)
  · intro hnone
    have hall := (by
      rw [hpar, List.find?_eq_none] at hnone
      exact hnone :
        ∀ m ∈ SearchService.mapSlackMessages (res.messages.getD []) c t,
          ¬((fun m : SearchService.ThreadMessage => decide (m.ts = t)) m = true))
    have hfil : (SearchService.mapSlackMessages (res.messages.getD []) c t).filter
        (fun m => ¬(m.ts = t)) =
        SearchService.mapSlackMessages (res.messages.getD []) c t := by
      rw [List.filter_eq_self]
      intro a ha
      simpa using hall a ha
    have hperm : (SearchService.getThreadRepliesCore res c t ord).replies.Perm
        ((SearchService.mapSlackMessages (res.messages.getD []) c t).filter
          (fun m => ¬(m.ts = t))) := by
      rw [hrep]
      by_cases ho : ord = some SearchService.ThreadOrder.newest
      · simp only [ho, if_true]
        exact (List.reverse_perm _).trans (List.mergeSort_perm _ _)
      · simp only [ho, if_false]
        exact List.mergeSort_perm _ _
    rw [hfil] at hperm
    exact hperm

/-- Claim C3 witness: a page with parent timestamp `"a"` and one other
message; the fetch is processed by the core, and the non-matching mapped
message is among the replies. -/
theorem getThreadReplies_parent_split_witness :
    SearchService.getThreadReplies
        (.ok ⟨some true, some [⟨"p", "a", none, none, none, none⟩,
          ⟨"r", "b", none, none, none, none⟩], none⟩) "C1" "a" none =
      .ok (SearchService.getThreadRepliesCore
        ⟨some true, some [⟨"p", "a", none, none, none, none⟩,
          ⟨"r", "b", none, none, none, none⟩], none⟩ "C1" "a" none) ∧
    (⟨"r", "", "b", "C1", none, none, none, some "a", false, false, none⟩ :
        SearchService.ThreadMessage) ∈
      (SearchService.getThreadRepliesCore
        ⟨some true, some [⟨"p", "a", none, none, none, none⟩,
          ⟨"r", "b", none, none, none, none⟩], none⟩ "C1" "a" none).replies :=
  ⟨((getThreadReplies_parent_split
      ⟨some true, some [⟨"p", "a", none, none, none, none⟩,
        ⟨"r", "b", none, none, none, none⟩], none⟩ "C1" "a" none).1
      _ rfl (by decide) (by decide)),
   ((getThreadReplies_parent_split
      ⟨some true, some [⟨"p", "a", none, none, none, none⟩,
        ⟨"r", "b", none, none, none, none⟩], none⟩ "C1" "a" none).2.2.2.2.1
      ⟨"r", "", "b", "C1", none, none, none, some "a", false, false, none⟩
      (by decide) (by decide))⟩

/-- The numeric sort key of a thread message: its parsed native
timestamp (only read under the hypothesis that the timestamp parses). -/
def tsKeyD (m : SearchService.ThreadMessage) : ℚ :=
  (parseFloatQ m.ts).getD 0

/-- Claim C6: when every reply's native timestamp parses and the parsed
values are pairwise distinct, the replies are strictly ascending in
parsed timestamp for `order = oldest` and for the unspecified default
(which coincide), and the `order = newest` replies are the exact reversal
of the `oldest` replies, hence strictly descending. -/
theorem getThreadReplies_reply_ordering
    (res : SearchService.ConversationsRepliesResponse) (c t : String)
    (hparse : ∀ m ∈ (SearchService.mapSlackMessages (res.messages.getD []) c t).filter
        (fun m => ¬(m.ts = t)), (parseFloatQ m.ts).isSome)
    (hdistinct : List.Pairwise (fun a b => tsKeyD a ≠ tsKeyD b)
      ((SearchService.mapSlackMessages (res.messages.getD []) c t).filter
        (fun m => ¬(m.ts = t)))) :
    List.Pairwise (fun a b => tsKeyD a < tsKeyD b)
      (SearchService.getThreadRepliesCore res c t none).replies ∧
    SearchService.getThreadRepliesCore res c t
        (some SearchService.ThreadOrder.oldest) =
      SearchService.getThreadRepliesCore res c t none ∧
    (SearchService.getThreadRepliesCore res c t
        (some SearchService.ThreadOrder.newest)).replies =
      (SearchService.getThreadRepliesCore res c t none).replies.reverse ∧
    List.Pairwise (fun a b => tsKeyD b < tsKeyD a)
      (SearchService.getThreadRepliesCore res c t
        (some SearchService.ThreadOrder.newest)).replies := by
  have hrep_old : (SearchService.getThreadRepliesCore res c t none).replies =
      List.mergeSort
        ((SearchService.mapSlackMessages (res.messages.getD []) c t).filter
          (fun m => ¬(m.ts = t))) SearchService.tsAscLe := rfl
  have hrep_new : (SearchService.getThreadRepliesCore res c t
      (some SearchService.ThreadOrder.newest)).replies =
      (List.mergeSort
        ((SearchService.mapSlackMessages (res.messages.getD []) c t).filter
          (fun m => ¬(m.ts = t))) SearchService.tsAscLe).reverse := rfl
  have hcmp : ∀ a ∈ (SearchService.mapSlackMessages (res.messages.getD []) c t).filter
      (fun m => ¬(m.ts = t)),
      ∀ b ∈ (SearchService.mapSlackMessages (res.messages.getD []) c t).filter
        (fun m => ¬(m.ts = t)),
      SearchService.tsAscLe a b = decide (tsKeyD a ≤ tsKeyD b) := by
    intro a ha b hb
    obtain ⟨ka, hka⟩ := Option.isSome_iff_exists.mp (hparse a ha)
    obtain ⟨kb, hkb⟩ := Option.isSome_iff_exists.mp (hparse b hb)
    unfold SearchService.tsAscLe tsKeyD
    rw [hka, hkb]
    simp
  have hmap := List.map_mergeSort (f := tsKeyD) (s := fun x y : ℚ => decide (x ≤ y)) hcmp
  have hqtrans : ∀ a b c2 : ℚ, decide (a ≤ b) = true → decide (b ≤ c2) = true →
      decide (a ≤ c2) = true := by
    intro a b c2 hab hbc
    rw [decide_eq_true_iff] at *
    exact le_trans hab hbc
  have hqtot : ∀ a b : ℚ, (decide (a ≤ b) || decide (b ≤ a)) = true := by
    intro a b
    simp only [Bool.or_eq_true, decide_eq_true_iff]
    exact le_total a b
  have hsorted := List.sorted_mergeSort hqtrans hqtot
    (((SearchService.mapSlackMessages (res.messages.getD []) c t).filter
      (fun m => ¬(m.ts = t))).map tsKeyD)
  rw [← hmap] at hsorted
  have hle : List.Pairwise (fun a b => tsKeyD a ≤ tsKeyD b)
      (List.mergeSort
        ((SearchService.mapSlackMessages (res.messages.getD []) c t).filter
          (fun m => ¬(m.ts = t))) SearchService.tsAscLe) := by
    have := List.pairwise_map.mp hsorted
    exact this.imp fun h => by simpa using h
  have hne : List.Pairwise (fun a b => tsKeyD a ≠ tsKeyD b)
      (List.mergeSort
        ((SearchService.mapSlackMessages (res.messages.getD []) c t).filter
          (fun m => ¬(m.ts = t))) SearchService.tsAscLe) := by
    have hperm := List.mergeSort_perm
      ((SearchService.mapSlackMessages (res.messages.getD []) c t).filter
        (fun m => ¬(m.ts = t))) SearchService.tsAscLe
    exact (List.Perm.pairwise_iff (fun h => h.symm) hperm).mpr hdistinct
  have hlt : List.Pairwise (fun a b => tsKeyD a < tsKeyD b)
      (List.mergeSort
        ((SearchService.mapSlackMessages (res.messages.getD []) c t).filter
          (fun m => ¬(m.ts = t))) SearchService.tsAscLe) :=
    (hle.and hne).imp fun h => lt_of_le_of_ne h.1 h.2
  refine ⟨by rw [hrep_old]; exact hlt, rfl, rfl, ?_⟩
  rw [hrep_new, List.pairwise_reverse]
  exact hlt

/-- Claim C6 witness: a page with parent `"100"` and replies `"200"`,
`"150"`; both hypotheses hold, so the ordering conclusions apply. -/
theorem getThreadReplies_reply_ordering_witness :
    List.Pairwise (fun a b => tsKeyD a < tsKeyD b)
      (SearchService.getThreadRepliesCore
        ⟨some true, some [⟨"p", "100", none, none, none, none⟩,
          ⟨"r2", "200", none, none, none, none⟩,
          ⟨"r1", "150", none, none, none, none⟩], none⟩ "C1" "100" none).replies ∧
    (SearchService.getThreadRepliesCore
        ⟨some true, some [⟨"p", "100", none, none, none, none⟩,
          ⟨"r2", "200", none, none, none, none⟩,
          ⟨"r1", "150", none, none, none, none⟩], none⟩ "C1" "100"
        (some SearchService.ThreadOrder.newest)).replies =
      (SearchService.getThreadRepliesCore
        ⟨some true, some [⟨"p", "100", none, none, none, none⟩,
          ⟨"r2", "200", none, none, none, none⟩,
          ⟨"r1", "150", none, none, none, none⟩], none⟩ "C1" "100" none).replies.reverse :=
  ⟨(getThreadReplies_reply_ordering
      ⟨some true, some [⟨"p", "100", none, none, none, none⟩,
        ⟨"r2", "200", none, none, none, none⟩,
        ⟨"r1", "150", none, none, none, none⟩], none⟩ "C1" "100"
      (by decide) (by decide)).1,
   (getThreadReplies_reply_ordering
      ⟨some true, some [⟨"p", "100", none, none, none, none⟩,
        ⟨"r2", "200", none, none, none, none⟩,
        ⟨"r1", "150", none, none, none, none⟩], none⟩ "C1" "100"
      (by decide) (by decide)).2.2.1⟩

/-! ### Claim C1 -/

/-- Claim C1: channel-name resolution tolerates per-identifier failures —
the resolved-name list is exactly the successful resolutions in input
order (failures excluded, the batch never aborts) — and when every
identifier of a non-empty, well-formed request fails to resolve,
`searchMessages` issues exactly one unscoped upstream search and returns
its converted result (or propagates its failure). -/
theorem searchMessages_resolution_tolerance_and_fallback
    (env : SearchService.SearchEnv) (opts : SearchService.SearchOptions)
    (ids : List String)
    (hq : jsTrim opts.query ≠ "")
    (hch : opts.channelIds = some ids)
    (hne : ids ≠ [])
    (hvalid : ∀ id ∈ ids, jsTrim id ≠ "")
    (hfail : ∀ id ∈ ids, (env.channelName id).toOption = none) :
    (∀ (env2 : SearchService.SearchEnv) (ids2 : List String),
      SearchService.channelNames env2 ids2 =
        ids2.filterMap fun id => (env2.channelName id).toOption) ∧
    SearchService.searchMessages env opts =
      ((match env.searchApi ⟨jsTrim opts.query, opts.maxResultCount, opts.teamId⟩ with
        | .ok r => SearchService.searchResponseToResult r
        | .error e => .error e),
       [⟨jsTrim opts.query, opts.maxResultCount, opts.teamId⟩]) := by
  have hnames : ∀ (env2 : SearchService.SearchEnv) (ids2 : List String),
      SearchService.channelNames env2 ids2 =
        ids2.filterMap fun id => (env2.channelName id).toOption := by
    intro env2 ids2
    simp only [SearchService.channelNames]
    rw [List.filterMap_map]
    simp only [Function.comp_def]
    by_cases h : (ids2.filterMap fun id => Except.toOption (env2.channelName id)).length = 0
    · rw [if_pos h]
      exact (List.length_eq_zero.mp h).symm
    · rw [if_neg h]
  refine ⟨hnames, ?_⟩
  have hfilterblank : ids.filter (fun id => jsTrim id = "") = [] := by
    rw [List.filter_eq_nil_iff]
    intro a ha
    simpa using hvalid a ha
  have hfilterok : ids.filter (fun id => ¬(jsTrim id = "")) = ids := by
    rw [List.filter_eq_self]
    intro a ha
    simpa using hvalid a ha
  have hnamesempty : SearchService.channelNames env ids = [] := by
    rw [hnames]
    rw [List.filterMap_eq_nil_iff]
    exact hfail
  unfold SearchService.searchMessages
  rw [if_neg hq]
  simp only [hch, Option.getD_some, hfilterblank]
  rw [if_neg (by simp)]
  rw [if_neg (by simpa using hne)]
  rw [hfilterok]
  rw [if_neg (by simpa using hne)]
  rw [hnamesempty]
  unfold SearchService.searchInChannels
  simp only [List.length_nil]
  rw [if_pos trivial]
  simp only [SearchService.searchSingleChannel]
  cases henv : env.searchApi ⟨jsTrim opts.query, opts.maxResultCount, opts.teamId⟩ with
  | ok r => simp [henv]
  | error e => simp [henv]

/-- Claim C1 witness: both supplied identifiers fail to resolve; the
request degrades to a single unscoped search whose converted result is
returned. -/
theorem searchMessages_resolution_tolerance_and_fallback_witness :
    SearchService.searchMessages
        ⟨fun _ => .error "nope",
         fun _ => .ok ⟨true, "q", some ⟨0, some [], none⟩, none⟩⟩
        ⟨" q ", some ["C1", "C2"], none, none⟩ =
      (SearchService.searchResponseToResult ⟨true, "q", some ⟨0, some [], none⟩, none⟩,
       [⟨"q", none, none⟩]) := by
  have h := (searchMessages_resolution_tolerance_and_fallback
      ⟨fun _ => .error "nope",
       fun _ => .ok ⟨true, "q", some ⟨0, some [], none⟩, none⟩⟩
      ⟨" q ", some ["C1", "C2"], none, none⟩ ["C1", "C2"]
      (by decide) rfl (by decide) (by decide) (by decide)).2
  rw [h]
  rfl

/-! ### Claim C2 -/

/-- The loop never performs more attempts than its remaining fuel. -/
theorem retryLoop_attempts_le (env : Nat → SlackAPIClient.ApiOutcome)
    (opts : SlackSearchOptions) :
    ∀ fuel attempt, (SlackAPIClient.retryLoop env opts fuel attempt).2 ≤ attempt + fuel := by
  intro fuel
  induction fuel with
  | zero =>
    intro attempt
    have h : (SlackAPIClient.retryLoop env opts 0 attempt).2 = attempt := rfl
    omega
  | succ n ih =>
    intro attempt
    have hunf : SlackAPIClient.retryLoop env opts (n + 1) attempt =
        (match SlackAPIClient.stepOf env opts attempt with
         | .success r => (.ok r, attempt + 1)
         | .retry => SlackAPIClient.retryLoop env opts n (attempt + 1)
         | .fail e => (.error e, attempt + 1)) := rfl
    cases hs : SlackAPIClient.stepOf env opts attempt with
    | success r =>
      simp only [hunf, hs]
      omega
    | retry =>
      simp only [hunf, hs]
      exact (ih (attempt + 1)).trans (by omega)
    | fail e =>
      simp only [hunf, hs]
      omega

/-- An authentication error code makes the wrapped response message
authentication-classified. -/
theorem authResponseMessage_classified (c : String)
    (h : c = "invalid_auth" ∨ c = "invalid_token" ∨ c = "account_inactive" ∨
      c = "token_revoked") :
    SlackAPIClient.isAuthenticationErrorMessage
      (SlackAPIClient.authResponseMessage c) = true := by
  rcases h with rfl | rfl | rfl | rfl <;>
    (unfold SlackAPIClient.isAuthenticationErrorMessage
       SlackAPIClient.authResponseMessage
     rw [strIncludes_append_right]
     simp only [Bool.true_or, Bool.or_true])

/-- An authentication-classified outcome makes the loop body fail
immediately (never retry). -/
theorem stepOf_fail_of_auth (env : Nat → SlackAPIClient.ApiOutcome)
    (opts : SlackSearchOptions) (attempt : Nat)
    (h : SlackAPIClient.authClassified (env attempt) = true) :
    ∃ e, SlackAPIClient.stepOf env opts attempt = .fail e := by
  unfold SlackAPIClient.authClassified at h
  cases ho : env attempt with
  | response r =>
    rw [ho] at h
    simp only [Bool.and_eq_true, Bool.not_eq_true'] at h
    obtain ⟨hrl, hauth⟩ := h
    have hcode : r.error = some "invalid_auth" ∨ r.error = some "invalid_token" ∨
        r.error = some "account_inactive" ∨ r.error = some "token_revoked" := by
      unfold SlackAPIClient.isAuthenticationError at hauth
      simp only [Bool.and_eq_true, Bool.or_eq_true, decide_eq_true_iff] at hauth
      tauto
    have hresp : SlackAPIClient.handleSearchResponse r attempt =
        .error (.plain ⟨SlackAPIClient.authResponseMessage ((r.error).getD ""),
          none, none⟩) := by
      unfold SlackAPIClient.handleSearchResponse
      rw [hrl]
      have hauth2 : SlackAPIClient.isAuthenticationError r = true := hauth
      simp [hauth2]
    have hexec : SlackAPIClient.executeSearchOnce env opts attempt =
        .error (.plain ⟨SlackAPIClient.authResponseMessage ((r.error).getD ""),
          none, none⟩) := by
      unfold SlackAPIClient.executeSearchOnce
      rw [ho]
      simp only [hresp]
    have hmsg : SlackAPIClient.isAuthenticationErrorMessage
        (SlackAPIClient.authResponseMessage ((r.error).getD "")) = true := by
      apply authResponseMessage_classified
      rcases hcode with hc | hc | hc | hc <;> rw [hc] <;> simp
    have herr : SlackAPIClient.handleSearchError
        (.plain ⟨SlackAPIClient.authResponseMessage ((r.error).getD ""),
          none, none⟩) attempt =
        .error (.plain ⟨SlackAPIClient.authResponseMessage
          (SlackAPIClient.authResponseMessage ((r.error).getD "")),
          none, none⟩) := by
      unfold SlackAPIClient.handleSearchError
      simp only [SlackAPIClient.getErrorMessage, hmsg, if_true]
    refine ⟨.plain ⟨SlackAPIClient.authResponseMessage
      (SlackAPIClient.authResponseMessage ((r.error).getD "")), none, none⟩, ?_⟩
    unfold SlackAPIClient.stepOf
    rw [hexec]
    simp only [herr]
  | exception e =>
    rw [ho] at h
    have hexec : SlackAPIClient.executeSearchOnce env opts attempt =
        .error (.plain e) := by
      unfold SlackAPIClient.executeSearchOnce
      rw [ho]
    have herr : SlackAPIClient.handleSearchError (.plain e) attempt =
        .error (.plain ⟨SlackAPIClient.authResponseMessage
          (SlackAPIClient.getErrorMessage e), none, none⟩) := by
      unfold SlackAPIClient.handleSearchError
      simp only [SlackAPIClient.getErrorMessage] at h ⊢
      simp only [h, if_true]
    refine ⟨.plain ⟨SlackAPIClient.authResponseMessage
      (SlackAPIClient.getErrorMessage e), none, none⟩, ?_⟩
    unfold SlackAPIClient.stepOf
    rw [hexec]
    simp only [herr]

/-- After `k` retrying iterations the loop continues at attempt `k` with
`k` less fuel. -/
theorem retryLoop_skip (env : Nat → SlackAPIClient.ApiOutcome)
    (opts : SlackSearchOptions) :
    ∀ (k fuel attempt : Nat), k ≤ fuel →
      (∀ j, j < k → SlackAPIClient.stepOf env opts (attempt + j) = .retry) →
      SlackAPIClient.retryLoop env opts fuel attempt =
        SlackAPIClient.retryLoop env opts (fuel - k) (attempt + k) := by
  intro k
  induction k with
  | zero => intro fuel attempt _ _; simp
  | succ n ih =>
    intro fuel attempt hk hsteps
    obtain ⟨m, rfl⟩ : ∃ m, fuel = m + 1 := ⟨fuel - 1, by omega⟩
    have h0 : SlackAPIClient.stepOf env opts attempt = .retry := by
      simpa using hsteps 0 (by omega)
    have hrest : ∀ j, j < n →
        SlackAPIClient.stepOf env opts (attempt + 1 + j) = .retry := by
      intro j hj
      have := hsteps (j + 1) (by omega)
      simpa [Nat.add_assoc, Nat.add_comm 1 j] using this
    calc SlackAPIClient.retryLoop env opts (m + 1) attempt
        = SlackAPIClient.retryLoop env opts m (attempt + 1) := by
          simp only [SlackAPIClient.retryLoop, h0]
      _ = SlackAPIClient.retryLoop env opts (m - n) (attempt + 1 + n) := by
          exact ih m (attempt + 1) (by omega) hrest
      _ = SlackAPIClient.retryLoop env opts (m + 1 - (n + 1)) (attempt + (n + 1)) := by
          congr 1
          · omega
          · omega

/-- Claim C2: every call through the retry loop performs at most
`MAX_RETRIES + 1 = 4` attempts, and whenever the loop reaches an attempt
whose outcome is authentication-classified, the call terminates right
there as a failure — `k + 1` total attempts, zero further retries —
regardless of how many attempts remain. -/
theorem executeSearchWithRetry_bound_and_auth_short_circuit :
    (∀ (env : Nat → SlackAPIClient.ApiOutcome) (opts : SlackSearchOptions),
      (SlackAPIClient.executeSearchWithRetry env opts).2 ≤
        SlackAPIClient.MAX_RETRIES + 1) ∧
    (∀ (env : Nat → SlackAPIClient.ApiOutcome) (opts : SlackSearchOptions)
      (k : Nat), k ≤ SlackAPIClient.MAX_RETRIES →
      (∀ j, j < k → SlackAPIClient.stepOf env opts j = .retry) →
      SlackAPIClient.authClassified (env k) = true →
      (SlackAPIClient.executeSearchWithRetry env opts).2 = k + 1 ∧
      (SlackAPIClient.executeSearchWithRetry env opts).1.isOk = false) := by
  constructor
  · intro env opts
    have := retryLoop_attempts_le env opts (SlackAPIClient.MAX_RETRIES + 1) 0
    simpa [SlackAPIClient.executeSearchWithRetry] using this
  · intro env opts k hk hsteps hauth
    obtain ⟨e, he⟩ := stepOf_fail_of_auth env opts k hauth
    have hskip := retryLoop_skip env opts k (SlackAPIClient.MAX_RETRIES + 1) 0
      (by omega) (by intro j hj; simpa using hsteps j hj)
    have hm : SlackAPIClient.MAX_RETRIES + 1 - k = (SlackAPIClient.MAX_RETRIES - k) + 1 := by
      omega
    have hfin : SlackAPIClient.retryLoop env opts
        ((SlackAPIClient.MAX_RETRIES - k) + 1) k = (.error e, k + 1) := by
      unfold SlackAPIClient.retryLoop
      rw [he]
    unfold SlackAPIClient.executeSearchWithRetry
    rw [hskip]
    simp only [Nat.zero_add]
    rw [hm, hfin]
    exact ⟨rfl, rfl⟩

/-- Claim C2 witness: an `invalid_auth` response at attempt 0 ends the
call after exactly one attempt, within the global 4-attempt bound. -/
theorem executeSearchWithRetry_bound_and_auth_short_circuit_witness :
    (SlackAPIClient.executeSearchWithRetry
        (fun _ => .response ⟨false, some "invalid_auth", none, none, none, none⟩)
        ⟨"q", none, none⟩).2 ≤ SlackAPIClient.MAX_RETRIES + 1 ∧
    (SlackAPIClient.executeSearchWithRetry
        (fun _ => .response ⟨false, some "invalid_auth", none, none, none, none⟩)
        ⟨"q", none, none⟩).2 = 0 + 1 ∧
    (SlackAPIClient.executeSearchWithRetry
        (fun _ => .response ⟨false, some "invalid_auth", none, none, none, none⟩)
        ⟨"q", none, none⟩).1.isOk = false :=
  ⟨executeSearchWithRetry_bound_and_auth_short_circuit.1
      (fun _ => .response ⟨false, some "invalid_auth", none, none, none, none⟩)
      ⟨"q", none, none⟩,
   (executeSearchWithRetry_bound_and_auth_short_circuit.2
      (fun _ => .response ⟨false, some "invalid_auth", none, none, none, none⟩)
      ⟨"q", none, none⟩ 0 (by decide)
      (fun j hj => absurd hj (Nat.not_lt_zero j)) (by decide)).1,
   (executeSearchWithRetry_bound_and_auth_short_circuit.2
      (fun _ => .response ⟨false, some "invalid_auth", none, none, none, none⟩)
      ⟨"q", none, none⟩ 0 (by decide)
      (fun j hj => absurd hj (Nat.not_lt_zero j)) (by decide)).2⟩
